import Mathlib

/-!
Verification of the `tsc` lexical scanner (`src/lexer/mod.rs`,
`src/lexer/token.rs`).

The scanner is embedded shallowly: the Rust `Lexer` struct (column, line,
peekable character stream) becomes the `LexState` structure, every method
becomes a pure function threading the state explicitly, and the `Iterator`
implementation becomes `lexNext`.  Looping methods (`push_while`, the
multi-line comment loop, the string loop, and the driver that repeatedly
calls `next`) are written with an explicit fuel argument so that they are
structurally recursive and compute inside the kernel; every loop iteration
consumes at least one input character, so fuel `input.length + 1` always
suffices and the fueled function agrees with the Rust loop.
-/

namespace Tsc

/-- Source position, from `src/lexer/location.rs` (constructed via
`Location::new(line, column)` in `mod.rs`). -/
structure Location where
  line : Nat
  column : Nat
deriving DecidableEq, Repr

/-- `CommentStyle` from `token.rs`. -/
inductive CommentStyle where
  | SingleLine
  | MultiLine
deriving DecidableEq, Repr

/-- `QuoteStyle` from `token.rs`. -/
inductive QuoteStyle where
  | Single
  | Double
deriving DecidableEq, Repr

set_option maxHeartbeats 1600000 in
/-- `TokenType` from `token.rs`: one variant per token kind used by
`mod.rs` (the checked-in `token.rs` lists only a subset of the variants
that `mod.rs` constructs; the remaining variants are exactly the ones
named at their construction sites in `mod.rs`). -/
inductive TokenType where
  | Comment (text : String) (style : CommentStyle)
  | WhiteSpace (text : String)
  | String (text : String) (quote : QuoteStyle)
  | Number (text : String)
  | Div
  | DivEqual
  | LeftBrace
  | RightBrace
  | LeftParen
  | RightParen
  | LeftBracket
  | RightBracket
  | Colon
  | Comma
  | Semicolon
  | Question
  | Tilde
  | Arrow
  | Equals
  | DoubleEquals
  | TripleEquals
  | Bang
  | NotEquals
  | NotTripleEquals
  | BinaryAnd
  | BinaryAndEquals
  | LogicalAnd
  | BinaryOr
  | BinaryOrEquals
  | LogicalOr
  | BinaryXor
  | BinaryXorEquals
  | Minus
  | MinusEquals
  | Decrement
  | Plus
  | PlusEquals
  | Increment
  | GreaterThan
  | GreaterThanEqualTo
  | RightShift
  | RightShiftEquals
  | TripleRightShift
  | TripleRightShiftEquals
  | LessThan
  | LessThanEqualTo
  | LeftShift
  | LeftShiftEquals
  | Period
  | Ellipsis
  | Percent
  | PercentEquals
  | Times
  | TimesEquals
  | Power
  | PowerEquals
deriving Repr

/-- `Token` from `token.rs`. -/
structure Token where
  column : Nat
  line : Nat
  typ : TokenType
deriving Repr

/-- `Token::new(loc, typ)`. -/
def Token.new (loc : Location) (typ : TokenType) : Token :=
  { column := loc.column, line := loc.line, typ := typ }

/-- `LexError` from `src/lexer/lexerror.rs` (its two variants are the ones
constructed in `mod.rs`). -/
inductive LexError where
  | UnexpectedCharacter (loc : Location) (c : Char)
  | UnexpectedEndOfInput (loc : Location)
deriving DecidableEq, Repr

/-- The `Lexer` struct: line/column counters plus the remaining input
(the peekable character stream, modelled as the list of characters not
yet consumed). -/
structure LexState where
  line : Nat
  column : Nat
  input : List Char
deriving DecidableEq, Repr

/-- `Lexer::new`: counters start at line 1, column 1. -/
def LexState.new (input : List Char) : LexState :=
  { line := 1, column := 1, input := input }

/-- `Lexer::get_location`. -/
def get_location (st : LexState) : Location :=
  { line := st.line, column := st.column }

/-- `Lexer::next_char`: consume one character; `'\n'` increments the line
and resets the column to 1, every other character increments the column. -/
def next_char (st : LexState) : Option Char × LexState :=
  match st.input with
  | [] => (none, st)
  | c :: rest =>
    if c = '\n' then
      (some c, { line := st.line + 1, column := 1, input := rest })
    else
      (some c, { line := st.line, column := st.column + 1, input := rest })

/-- `Lexer::peek`. -/
def peek (st : LexState) : Option Char :=
  st.input.head?

/-- `Lexer::skip` (consume one character, dropping it). -/
def skip (st : LexState) : LexState :=
  (next_char st).2

/-- Character classifier `is_line_terminator` from `mod.rs`. -/
def is_line_terminator (c : Char) : Bool :=
  c = '\u000A' || c = '\u000D' || c = '\u2028' || c = '\u2029'

/-- Character classifier `is_ws` from `mod.rs` (note: excludes all four
line terminators). -/
def is_ws (c : Char) : Bool :=
  c = '\u0009' || c = '\u000B' || c = '\u000C' || c = '\u0020' ||
  c = '\u00A0' || c = '\u1680' || c = '\u2000' || c = '\u2001' ||
  c = '\u2002' || c = '\u2003' || c = '\u2004' || c = '\u2005' ||
  c = '\u2006' || c = '\u2007' || c = '\u2008' || c = '\u2009' ||
  c = '\u200A' || c = '\u202F' || c = '\u205F' || c = '\uFEFF'

/-- Character classifier `is_digit` from `mod.rs`. -/
def is_digit (c : Char) : Bool :=
  c = '0' || c = '1' || c = '2' || c = '3' || c = '4' ||
  c = '5' || c = '6' || c = '7' || c = '8' || c = '9'

/-- `Lexer::unexpected_char`: `UnexpectedCharacter` at the current
position. -/
def unexpected_char (st : LexState) (c : Char) : LexError :=
  LexError.UnexpectedCharacter (get_location st) c

/-- `Lexer::unexpected_eof`: `UnexpectedEndOfInput` at the current
position. -/
def unexpected_eof (st : LexState) : LexError :=
  LexError.UnexpectedEndOfInput (get_location st)

/-- `Lexer::scalar`: skip one character and build a token at `loc`. -/
def scalar (st : LexState) (loc : Location) (typ : TokenType) :
    Token × LexState :=
  (Token.new loc typ, skip st)

/-- Fueled body of `Lexer::push_while`: push characters satisfying the
predicate onto `s`, stopping at the first character that fails it or at
end of input.  Each iteration consumes one character, so fuel
`input.length + 1` (supplied by `push_while`) never runs out. -/
def push_whileF (p : Char → Bool) : Nat → String → LexState → String × LexState
  | 0, s, st => (s, st)
  | fuel + 1, s, st =>
    match peek st with
    | some c => if p c then push_whileF p fuel (s.push c) (skip st) else (s, st)
    | none => (s, st)

/-- `Lexer::push_while`. -/
def push_while (p : Char → Bool) (st : LexState) (s : String) :
    String × LexState :=
  push_whileF p (st.input.length + 1) s st

/-- Fueled body of the `CommentStyle::MultiLine` loop in `Lexer::comment`:
consume characters until a `*` is read whose immediately following
character is `/`; on a `*` followed by any other character both are
consumed and appended; end of input mid-comment is
`UnexpectedEndOfInput`.  Each iteration consumes at least one character,
so fuel `input.length + 1` never runs out. -/
def commentMLF : Nat → String → LexState → Except LexError String × LexState
  | 0, _, st => (.error (unexpected_eof st), st)
  | fuel + 1, s, st =>
    match next_char st with
    | (some c, st') =>
      if c = '*' then
        match next_char st' with
        | (some c2, st'') =>
          if c2 = '/' then (.ok s, st'')
          else commentMLF fuel ((s.push '*').push c2) st''
        | (none, st'') => (.error (unexpected_eof st''), st'')
      else commentMLF fuel (s.push c) st'
    | (none, st') => (.error (unexpected_eof st'), st')

/-- `Lexer::comment`: skip the second delimiter character, then scan the
comment body.  The single-line case calls
`push_while(&mut s, is_line_terminator)` — i.e. it pushes characters
while they ARE line terminators. -/
def comment (loc : Location) (style : CommentStyle) (st : LexState) :
    Except LexError Token × LexState :=
  let st1 := skip st
  match style with
  | .SingleLine =>
    let (s, st2) := push_while is_line_terminator st1 ("")
    (.ok (Token.new loc (.Comment s .SingleLine)), st2)
  | .MultiLine =>
    match commentMLF (st1.input.length + 1) ("") st1 with
    | (.ok s, st2) => (.ok (Token.new loc (.Comment s .MultiLine)), st2)
    | (.error e, st2) => (.error e, st2)

/-- `Lexer::ws`: collect the run of recognized whitespace characters. -/
def ws (st : LexState) : TokenType × LexState :=
  let (s, st') := push_while is_ws st ("")
  (.WhiteSpace s, st')

/-- `Lexer::escape_or_line_continuation`: consume the character after a
backslash.  A CR immediately followed by LF is consumed as one
two-character line continuation; the Rust arms for a quote, a backslash
and any other character all produce backslash-then-character. -/
def escape_or_line_continuation (st : LexState) :
    Except LexError String × LexState :=
  match next_char st with
  | (some c, st') =>
    if is_line_terminator c then
      if c = '\u000D' ∧ peek st' = some '\u000A' then
        (.ok ("\\\u000D\u000A"), skip st')
      else
        (.ok (("\\").push c), st')
    else
      (.ok (("\\").push c), st')
  | (none, st') => (.error (unexpected_eof st'), st')

/-- Fueled body of the loop in `Lexer::string`: consume characters until
the matching quote; a backslash delegates to
`escape_or_line_continuation`; an unescaped line terminator is
`UnexpectedCharacter`; end of input is `UnexpectedEndOfInput`.  Each
iteration consumes at least one character, so fuel `input.length + 1`
never runs out. -/
def stringF (quote : QuoteStyle) :
    Nat → String → LexState → Except LexError String × LexState
  | 0, _, st => (.error (unexpected_eof st), st)
  | fuel + 1, s, st =>
    match next_char st with
    | (some c, st') =>
      if c = '"' ∧ quote = .Double then (.ok s, st')
      else if c = '\'' ∧ quote = .Single then (.ok s, st')
      else if c = '\\' then
        match escape_or_line_continuation st' with
        | (.ok esc, st'') => stringF quote fuel (s ++ esc) st''
        | (.error e, st'') => (.error e, st'')
      else if is_line_terminator c then
        (.error (unexpected_char st' c), st')
      else
        stringF quote fuel (s.push c) st'
    | (none, st') => (.error (unexpected_eof st'), st')

/-- `Lexer::string`: skip the leading quote, then scan the body. -/
def string (quote : QuoteStyle) (st : LexState) :
    Except LexError TokenType × LexState :=
  let st1 := skip st
  match stringF quote (st1.input.length + 1) ("") st1 with
  | (.ok s, st2) => (.ok (.String s quote), st2)
  | (.error e, st2) => (.error e, st2)

/-- `Lexer::decimal`: skip one character (intended: the `.`), then require
a digit (pushed to the result) followed by further digits.  The skipped
character is not part of the returned text. -/
def decimal (st : LexState) : Except LexError String × LexState :=
  let st1 := skip st
  match peek st1 with
  | some c =>
    if is_digit c then
      let st2 := skip st1
      let (s, st3) := push_while is_digit st2 (("").push c)
      (.ok s, st3)
    else (.error (unexpected_char st1 c), st1)
  | none => (.error (unexpected_eof st1), st1)

/-- `Lexer::exponent`: skip one character (the `e`/`E`), an optional sign
(part of the returned text), then at least one digit followed by further
digits.  The skipped `e`/`E` is not part of the returned text. -/
def exponent (st : LexState) : Except LexError String × LexState :=
  let st1 := skip st
  let signed : String × LexState :=
    match peek st1 with
    | some c => if c = '+' ∨ c = '-' then (("").push c, skip st1) else ("", st1)
    | none => ("", st1)
  let (s, st2) := signed
  match next_char st2 with
  | (some d, st3) =>
    if is_digit d then
      let (s', st4) := push_while is_digit st3 (s.push d)
      (.ok s', st4)
    else (.error (unexpected_char st3 d), st3)
  | (none, st3) => (.error (unexpected_eof st3), st3)

/-- `Lexer::digit` (constructs beginning with a digit): integer part via
`push_while is_digit`, then an optional decimal part (appending what
`decimal` returns), then an optional exponent part (appending what
`exponent` returns). -/
def digit (st : LexState) : Except LexError TokenType × LexState :=
  let (s, st1) := push_while is_digit st ("")
  let afterDec : Except LexError String × LexState :=
    if peek st1 = some '.' then
      match decimal st1 with
      | (.ok d, st2) => (.ok (s ++ d), st2)
      | (.error e, st2) => (.error e, st2)
    else (.ok s, st1)
  match afterDec with
  | (.error e, st2) => (.error e, st2)
  | (.ok s2, st2) =>
    if peek st2 = some 'e' ∨ peek st2 = some 'E' then
      match exponent st2 with
      | (.ok ex, st3) => (.ok (.Number (s2 ++ ex)), st3)
      | (.error e, st3) => (.error e, st3)
    else (.ok (.Number s2), st2)

/-- `Lexer::slash`: skip the `/`, then dispatch on the next character:
`/` → line comment, `*` → block comment, `=` → `DivEqual` via `scalar`,
anything else (or end of input) → `Div` via `scalar`. -/
def slash (loc : Location) (st : LexState) : Except LexError Token × LexState :=
  let st1 := skip st
  if peek st1 = some '/' then comment loc .SingleLine st1
  else if peek st1 = some '*' then comment loc .MultiLine st1
  else if peek st1 = some '=' then
    let (t, st2) := scalar st1 loc .DivEqual
    (.ok t, st2)
  else
    let (t, st2) := scalar st1 loc .Div
    (.ok t, st2)

/-- `Lexer::equal`: `=>` | `===` | `==` | `=`. -/
def equal (st : LexState) : TokenType × LexState :=
  let st1 := skip st
  if peek st1 = some '>' then (.Arrow, skip st1)
  else if peek st1 = some '=' then
    let st2 := skip st1
    if peek st2 = some '=' then (.TripleEquals, skip st2)
    else (.DoubleEquals, st2)
  else (.Equals, st1)

/-- `Lexer::bang`: `!==` | `!=` | `!`. -/
def bang (st : LexState) : TokenType × LexState :=
  let st1 := skip st
  if peek st1 = some '=' then
    let st2 := skip st1
    if peek st2 = some '=' then (.NotTripleEquals, skip st2)
    else (.NotEquals, st2)
  else (.Bang, st1)

/-- `Lexer::ampersand`: `&&` | `&=` | `&`. -/
def ampersand (st : LexState) : TokenType × LexState :=
  let st1 := skip st
  if peek st1 = some '&' then (.LogicalAnd, skip st1)
  else if peek st1 = some '=' then (.BinaryAndEquals, skip st1)
  else (.BinaryAnd, st1)

/-- `Lexer::pipe`: `||` | `|=` | `|`. -/
def pipe (st : LexState) : TokenType × LexState :=
  let st1 := skip st
  if peek st1 = some '|' then (.LogicalOr, skip st1)
  else if peek st1 = some '=' then (.BinaryOrEquals, skip st1)
  else (.BinaryOr, st1)

/-- `Lexer::caret`: `^=` | `^`. -/
def caret (st : LexState) : TokenType × LexState :=
  let st1 := skip st
  if peek st1 = some '=' then (.BinaryXorEquals, skip st1)
  else (.BinaryXor, st1)

/-- `Lexer::minus`: `--` | `-=` | `-`. -/
def minus (st : LexState) : TokenType × LexState :=
  let st1 := skip st
  if peek st1 = some '-' then (.Decrement, skip st1)
  else if peek st1 = some '=' then (.MinusEquals, skip st1)
  else (.Minus, st1)

/-- `Lexer::plus`: `++` | `+=` | `+`. -/
def plus (st : LexState) : TokenType × LexState :=
  let st1 := skip st
  if peek st1 = some '+' then (.Increment, skip st1)
  else if peek st1 = some '=' then (.PlusEquals, skip st1)
  else (.Plus, st1)

/-- `Lexer::gt`: `>=` | `>>=` | `>>>=` | `>>>` | `>>` | `>`, in the
source's test order. -/
def gt (st : LexState) : TokenType × LexState :=
  let st1 := skip st
  if peek st1 = some '=' then (.GreaterThanEqualTo, skip st1)
  else if peek st1 = some '>' then
    let st2 := skip st1
    if peek st2 = some '=' then (.RightShiftEquals, skip st2)
    else if peek st2 = some '>' then
      let st3 := skip st2
      if peek st3 = some '=' then (.TripleRightShiftEquals, skip st3)
      else (.TripleRightShift, st3)
    else (.RightShift, st2)
  else (.GreaterThan, st1)

/-- `Lexer::lt`: `<<=` | `<<` | `<=` | `<`. -/
def lt (st : LexState) : TokenType × LexState :=
  let st1 := skip st
  if peek st1 = some '<' then
    let st2 := skip st1
    if peek st2 = some '=' then (.LeftShiftEquals, skip st2)
    else (.LeftShift, st2)
  else if peek st1 = some '=' then (.LessThanEqualTo, skip st1)
  else (.LessThan, st1)

/-- `Lexer::period`: skip the `.`; a second `.` demands a third (else an
error); a digit delegates to `decimal` and wraps the result in `Number`;
anything else is a plain `Period`. -/
def period (loc : Location) (st : LexState) : Except LexError Token × LexState :=
  let st1 := skip st
  if peek st1 = some '.' then
    let st2 := skip st1
    match next_char st2 with
    | (some c, st3) =>
      if c = '.' then (.ok (Token.new loc .Ellipsis), st3)
      else (.error (unexpected_char st3 c), st3)
    | (none, st3) => (.error (unexpected_eof st3), st3)
  else
    match peek st1 with
    | some c =>
      if is_digit c then
        match decimal st1 with
        | (.ok d, st2) => (.ok (Token.new loc (.Number d)), st2)
        | (.error e, st2) => (.error e, st2)
      else (.ok (Token.new loc .Period), st1)
    | none => (.ok (Token.new loc .Period), st1)

/-- `Lexer::percent`: `%=` | `%`. -/
def percent (st : LexState) : TokenType × LexState :=
  let st1 := skip st
  if peek st1 = some '=' then (.PercentEquals, skip st1)
  else (.Percent, st1)

/-- `Lexer::asterisk`: `**=` | `**` | `*=` | `*`. -/
def asterisk (st : LexState) : TokenType × LexState :=
  let st1 := skip st
  if peek st1 = some '*' then
    let st2 := skip st1
    if peek st2 = some '=' then (.PowerEquals, skip st2)
    else (.Power, st2)
  else if peek st1 = some '=' then (.TimesEquals, skip st1)
  else (.Times, st1)

/-- Wrap a `TokenType`-producing sub-scanner result as the dispatcher
does: `Ok(Token::new(loc, self.f()))`. -/
def opTok (loc : Location) (r : TokenType × LexState) :
    Option (Except LexError Token) × LexState :=
  (some (.ok (Token.new loc r.1)), r.2)

/-- A dispatcher arm `Ok(self.scalar(loc, typ))`. -/
def scalarTok (st : LexState) (loc : Location) (typ : TokenType) :
    Option (Except LexError Token) × LexState :=
  let (t, st') := scalar st loc typ
  (some (.ok t), st')

/-- Wrap a `Result<Token, LexError>`-producing sub-scanner result as the
dispatcher's item. -/
def resTok (r : Except LexError Token × LexState) :
    Option (Except LexError Token) × LexState :=
  match r with
  | (.ok t, st) => (some (.ok t), st)
  | (.error e, st) => (some (.error e), st)

/-- `<Lexer as Iterator>::next`: capture the location, peek one character
(without consuming), and dispatch.  Arm order follows the source match:
whitespace, digit, then each literal character, then the catch-all
`UnexpectedCharacter` (which consumes nothing). -/
def lexNext (st : LexState) : Option (Except LexError Token) × LexState :=
  let loc := get_location st
  match peek st with
  | none => (none, st)
  | some c =>
    if is_ws c then opTok loc (ws st)
    else if is_digit c then resTok (match digit st with
      | (.ok t, st') => (.ok (Token.new loc t), st')
      | (.error e, st') => (.error e, st'))
    else if c = '/' then resTok (slash loc st)
    else if c = '\'' then resTok (match string .Single st with
      | (.ok t, st') => (.ok (Token.new loc t), st')
      | (.error e, st') => (.error e, st'))
    else if c = '"' then resTok (match string .Double st with
      | (.ok t, st') => (.ok (Token.new loc t), st')
      | (.error e, st') => (.error e, st'))
    else if c = '{' then scalarTok st loc .LeftBrace
    else if c = '}' then scalarTok st loc .RightBrace
    else if c = '=' then opTok loc (equal st)
    else if c = '!' then opTok loc (bang st)
    else if c = '&' then opTok loc (ampersand st)
    else if c = '|' then opTok loc (pipe st)
    else if c = '^' then opTok loc (caret st)
    else if c = '(' then scalarTok st loc .LeftParen
    else if c = ')' then scalarTok st loc .RightParen
    else if c = ']' then scalarTok st loc .RightBracket
    else if c = '[' then scalarTok st loc .LeftBracket
    else if c = ':' then scalarTok st loc .Colon
    else if c = ',' then scalarTok st loc .Comma
    else if c = '+' then opTok loc (plus st)
    else if c = '-' then opTok loc (minus st)
    else if c = '>' then opTok loc (gt st)
    else if c = '<' then opTok loc (lt st)
    else if c = '.' then resTok (period loc st)
    else if c = '%' then opTok loc (percent st)
    else if c = '*' then opTok loc (asterisk st)
    else if c = '~' then scalarTok st loc .Tilde
    else if c = ';' then scalarTok st loc .Semicolon
    else if c = '?' then scalarTok st loc .Question
    else (some (.error (unexpected_char st c)), st)

/-- Driver for a caller that pulls tokens until the iterator yields
`None` or a first error (the scanning session the spec describes for
well-formed input).  Fueled; `input.length + 1` calls always suffice
because every `Ok` item consumes at least one character. -/
def lexAll : Nat → LexState → List (Except LexError Token)
  | 0, _ => []
  | fuel + 1, st =>
    match lexNext st with
    | (none, _) => []
    | (some (.ok t), st') => .ok t :: lexAll fuel st'
    | (some (.error e), _) => [.error e]

/-- Driver for a caller that keeps calling `next()` until it yields
`None`, recording every item — errors included — exactly as the Rust
`Iterator` protocol allows.  Fueled. -/
def collect : Nat → LexState → List (Except LexError Token)
  | 0, _ => []
  | fuel + 1, st =>
    match lexNext st with
    | (none, _) => []
    | (some r, st') => r :: collect fuel st'

/-- Modelled from the spec: the raw textual form of a token (section 3
and the `to_string`/`Display` rendering used by the repository's tests,
whose implementation is not under `src/`).  Whitespace, string, number
and comment kinds render their stored text inside their delimiters;
every fixed operator/punctuator renders its lexeme. -/
def rawText : TokenType → String
  | .Comment s .SingleLine => "//" ++ s
  | .Comment s .MultiLine => "/*" ++ s ++ "*/"
  | .WhiteSpace s => s
  | .String s .Single => "'" ++ s ++ "'"
  | .String s .Double => "\"" ++ s ++ "\""
  | .Number s => s
  | .Div => "/"
  | .DivEqual => "/="
  | .LeftBrace => "\x7b"
  | .RightBrace => "\x7d"
  | .LeftParen => "("
  | .RightParen => ")"
  | .LeftBracket => "["
  | .RightBracket => "]"
  | .Colon => ":"
  | .Comma => ","
  | .Semicolon => ";"
  | .Question => "?"
  | .Tilde => "~"
  | .Arrow => "=>"
  | .Equals => "="
  | .DoubleEquals => "=="
  | .TripleEquals => "==="
  | .Bang => "!"
  | .NotEquals => "!="
  | .NotTripleEquals => "!=="
  | .BinaryAnd => "&"
  | .BinaryAndEquals => "&="
  | .LogicalAnd => "&&"
  | .BinaryOr => "|"
  | .BinaryOrEquals => "|="
  | .LogicalOr => "||"
  | .BinaryXor => "^"
  | .BinaryXorEquals => "^="
  | .Minus => "-"
  | .MinusEquals => "-="
  | .Decrement => "--"
  | .Plus => "+"
  | .PlusEquals => "+="
  | .Increment => "++"
  | .GreaterThan => ">"
  | .GreaterThanEqualTo => ">="
  | .RightShift => ">>"
  | .RightShiftEquals => ">>="
  | .TripleRightShift => ">>>"
  | .TripleRightShiftEquals => ">>>="
  | .LessThan => "<"
  | .LessThanEqualTo => "<="
  | .LeftShift => "<<"
  | .LeftShiftEquals => "<<="
  | .Period => "."
  | .Ellipsis => "..."
  | .Percent => "%"
  | .PercentEquals => "%="
  | .Times => "*"
  | .TimesEquals => "*="
  | .Power => "**"
  | .PowerEquals => "**="

/-- Concatenation of the raw textual forms of the successfully produced
tokens of a scan result (error items contribute nothing). -/
def rawConcat (items : List (Except LexError Token)) : String :=
  items.foldl (fun acc r => match r with
    | .ok t => acc ++ rawText t.typ
    | .error _ => acc) ""

/-- Modelled from the spec: the `>` operator family table of section 4.6
(`>` → `>>>=` | `>>>` | `>>=` | `>>` | `>=` | `>`), longest form first. -/
def gtFamily : List (List Char × TokenType) :=
  [(['>', '>', '>', '='], .TripleRightShiftEquals),
   (['>', '>', '>'], .TripleRightShift),
   (['>', '>', '='], .RightShiftEquals),
   (['>', '>'], .RightShift),
   (['>', '='], .GreaterThanEqualTo),
   (['>'], .GreaterThan)]

/-- Modelled from the spec: longest match over the `>` family — the first
(longest) entry of `gtFamily` that is a prefix of the input, together
with its length. -/
def gtLongest (input : List Char) : Nat × TokenType :=
  if List.isPrefixOf ['>', '>', '>', '='] input then (4, .TripleRightShiftEquals)
  else if List.isPrefixOf ['>', '>', '>'] input then (3, .TripleRightShift)
  else if List.isPrefixOf ['>', '>', '='] input then (3, .RightShiftEquals)
  else if List.isPrefixOf ['>', '>'] input then (2, .RightShift)
  else if List.isPrefixOf ['>', '='] input then (2, .GreaterThanEqualTo)
  else (1, .GreaterThan)

/-! ## Spec claims -/

/-- Helper for the `>` family: running `Lexer::gt` from a state whose
input starts with `>` consumes exactly the longest family lexeme that
prefixes the input and returns its token type. -/
theorem gt_eq_longest (l col : Nat) (rest : List Char) :
    gt ⟨l, col, '>' :: rest⟩ =
      ((gtLongest ('>' :: rest)).2,
       ⟨l, col + (gtLongest ('>' :: rest)).1,
        ('>' :: rest).drop (gtLongest ('>' :: rest)).1⟩) := by
  rcases rest with _ | ⟨c1, rest1⟩
  · simp [gt, gtLongest, skip, next_char, peek, List.isPrefixOf]
  by_cases h1 : c1 = '='
  · subst h1
    simp [gt, gtLongest, skip, next_char, peek, List.isPrefixOf, Nat.add_assoc]
  by_cases h2 : c1 = '>'
  swap
  · have h1' : ¬('=' = c1) := fun h => h1 h.symm
    have h2' : ¬('>' = c1) := fun h => h2 h.symm
    simp [gt, gtLongest, skip, next_char, peek, List.isPrefixOf, h1, h2, h1', h2']
  subst h2
  rcases rest1 with _ | ⟨c2, rest2⟩
  · simp [gt, gtLongest, skip, next_char, peek, List.isPrefixOf, Nat.add_assoc]
  by_cases h3 : c2 = '='
  · subst h3
    simp [gt, gtLongest, skip, next_char, peek, List.isPrefixOf, Nat.add_assoc]
  by_cases h4 : c2 = '>'
  swap
  · have h3' : ¬('=' = c2) := fun h => h3 h.symm
    have h4' : ¬('>' = c2) := fun h => h4 h.symm
    simp [gt, gtLongest, skip, next_char, peek, List.isPrefixOf, h3, h4, h3', h4',
      Nat.add_assoc]
  subst h4
  rcases rest2 with _ | ⟨c3, rest3⟩
  · simp [gt, gtLongest, skip, next_char, peek, List.isPrefixOf, Nat.add_assoc]
  by_cases h5 : c3 = '='
  · subst h5
    simp [gt, gtLongest, skip, next_char, peek, List.isPrefixOf, Nat.add_assoc]
  · have h5' : ¬('=' = c3) := fun h => h5 h.symm
    simp [gt, gtLongest, skip, next_char, peek, List.isPrefixOf, h5, h5', Nat.add_assoc]

/-- C1 (code bug): the round-trip invariant fails on the legally-formed
input `//x` (a line comment running to end of input).  Because
`Lexer::comment` passes `is_line_terminator` (not its negation) to
`push_while`, the scanner emits a `Comment` token with empty text after
consuming only `//`, then fails with `UnexpectedCharacter` on `x`; the
concatenated raw text of the produced tokens is `//`, not the input.
This contradicts the repository's own test `identifies_comments`. -/
theorem c1_roundtrip_fails :
    lexAll 4 (LexState.new ("//x".toList)) =
      [.ok ⟨1, 1, .Comment ("") .SingleLine⟩,
       .error (.UnexpectedCharacter ⟨1, 3⟩ 'x')] ∧
    rawConcat (lexAll 4 (LexState.new ("//x".toList))) = "//" ∧
    ("//" : String) ≠ "//x" :=
  ⟨rfl, rfl, by decide⟩

/-- C2 (code bug): `Lexer::decimal` and `Lexer::exponent` `skip` the `.`
and the `e`/`E` without appending them to the returned text, so the
`NumberLiteral` raw text is not the source substring: input `0.123`
yields one `Number` token with text `0123` (not `0.123`) and input
`10e+42` yields one `Number` token with text `10+42` (not `10e+42`). -/
theorem c2_number_raw_text_drops_delimiters :
    lexAll 2 (LexState.new ("0.123".toList)) = [.ok ⟨1, 1, .Number ("0123")⟩] ∧
    lexAll 2 (LexState.new ("10e+42".toList)) = [.ok ⟨1, 1, .Number ("10+42")⟩] :=
  ⟨rfl, rfl⟩

/-- C3 (code bug): on input `//this is a comment` the scanner produces a
line-comment token whose text is empty and whose raw extent is only the
two slashes, because the single-line arm of `Lexer::comment` pushes
characters while they ARE line terminators (`push_while(&mut s,
is_line_terminator)`), stopping immediately at `t`; the remaining input
is untouched.  The claim (and the repository's test
`identifies_comments`) expects the text `this is a comment`. -/
theorem c3_line_comment_scans_nothing :
    lexNext (LexState.new ("//this is a comment".toList)) =
      (some (.ok ⟨1, 1, .Comment ("") .SingleLine⟩),
       ⟨1, 3, "this is a comment".toList⟩) := rfl

/-- C4 (code bug): on input `/***/` the scanner reports
`UnexpectedEndOfInput` instead of a block comment with text `*`: after
reading a `*` followed by a non-`/` character, `Lexer::comment` consumes
BOTH characters, so the second `*` of `**/` is never reconsidered as the
start of the terminator and the trailing `/` is swallowed as comment
text. -/
theorem c4_block_comment_overlap_lost :
    lexNext (LexState.new ("/***/".toList)) =
      (some (.error (.UnexpectedEndOfInput ⟨1, 6⟩)), ⟨1, 6, []⟩) := rfl

/-- C5 (code bug): on input `/;` the plain-div arm of `Lexer::slash`
calls `scalar`, which performs one more `skip` even though the `/` was
already consumed; the `;` is therefore consumed into no token and the
scan of `/;` produces only a `Div` token with nothing left, instead of
`Div` followed by `Semicolon`. -/
theorem c5_div_consumes_next_char :
    lexNext (LexState.new ("/;".toList)) =
      (some (.ok ⟨1, 1, .Div⟩), ⟨1, 3, []⟩) ∧
    lexAll 3 (LexState.new ("/;".toList)) = [.ok ⟨1, 1, .Div⟩] :=
  ⟨rfl, rfl⟩

/-- C6 (code bug): on input `.52` the scanner produces a `Number` token
with text `2`, not `.52`: `Lexer::period` has already consumed the `.`
when it calls `Lexer::decimal`, whose first unconditional `skip`
(intended for the `.`) then consumes the digit `5`, and neither consumed
character reaches the token text. -/
theorem c6_fraction_start_drops_chars :
    lexNext (LexState.new (".52".toList)) =
      (some (.ok ⟨1, 1, .Number ("2")⟩), ⟨1, 4, []⟩) := rfl

/-- C7 counterexample: errors are not terminal.  On input `1.;` the
first call to `next()` yields `UnexpectedCharacter` at the unconsumed
`;`, and the very next call yields a further value — an `Ok Semicolon`
token — contradicting the claim that no further `Token` or `LexError`
values are produced after an error. -/
theorem c7_error_not_terminal_cex :
    (lexNext (LexState.new ("1.;".toList))).1 =
      some (.error (.UnexpectedCharacter ⟨1, 3⟩ ';')) ∧
    (lexNext ((lexNext (LexState.new ("1.;".toList))).2)).1 =
      some (.ok ⟨3, 1, .Semicolon⟩) :=
  ⟨rfl, rfl⟩

/-- C7 amended: the `Lexer` struct keeps no error state, so an error
does not poison the iterator; subsequent calls continue scanning from
the current stream position and may produce further tokens or errors.
On input `1.;` a caller that keeps pulling items collects the
`UnexpectedCharacter` error at `;` followed by an `Ok Semicolon` token,
and then end of input. -/
theorem c7_scanning_continues_after_error :
    collect 4 (LexState.new ("1.;".toList)) =
      [.error (.UnexpectedCharacter ⟨1, 3⟩ ';'), .ok ⟨3, 1, .Semicolon⟩] := rfl

/-- C8 counterexample: the position tracker does NOT treat `\u{000D}`
(CR) as a line terminator: consuming a lone CR from position
(line 1, column 1) yields (line 1, column 2), not (line 2, column 1) as
the claim requires. -/
theorem c8_cr_not_line_terminator_cex :
    next_char ⟨1, 1, ['\u000D']⟩ = (some '\u000D', ⟨1, 2, []⟩) ∧
    (⟨1, 2, ([] : List Char)⟩ : LexState) ≠ ⟨2, 1, ([] : List Char)⟩ :=
  ⟨rfl, by decide⟩

/-- C8 amended: `Lexer::next_char` special-cases only `\u{000A}` (LF):
consuming LF increments the line and resets the column to 1, while
consuming any of the other recognized line terminators — CR, `\u{2028}`,
`\u{2029}` — merely increments the column like an ordinary character. -/
theorem c8_only_lf_advances_line (l col : Nat) (rest : List Char) :
    next_char ⟨l, col, '\u000A' :: rest⟩ = (some '\u000A', ⟨l + 1, 1, rest⟩) ∧
    next_char ⟨l, col, '\u000D' :: rest⟩ = (some '\u000D', ⟨l, col + 1, rest⟩) ∧
    next_char ⟨l, col, '\u2028' :: rest⟩ = (some '\u2028', ⟨l, col + 1, rest⟩) ∧
    next_char ⟨l, col, '\u2029' :: rest⟩ = (some '\u2029', ⟨l, col + 1, rest⟩) :=
  ⟨rfl, rfl, rfl, rfl⟩

/-- C9: longest match for the `>` operator family.  For every input
beginning with `>`, `next()` consumes exactly the longest lexeme of the
family `>>>=` | `>>>` | `>>=` | `>>` | `>=` | `>` that prefixes the
input (as computed by the spec-side table `gtLongest`) and emits its
token at the token's start position — so a shorter prefix token is never
emitted when a longer valid extension is present; in particular input
`>>>=` yields exactly one `TripleRightShiftEquals` token. -/
theorem c9_gt_longest_match :
    (∀ (l col : Nat) (rest : List Char),
      lexNext ⟨l, col, '>' :: rest⟩ =
        (some (.ok ⟨col, l, (gtLongest ('>' :: rest)).2⟩),
         ⟨l, col + (gtLongest ('>' :: rest)).1,
          ('>' :: rest).drop (gtLongest ('>' :: rest)).1⟩)) ∧
    lexAll 2 (LexState.new (">>>=".toList)) =
      [.ok ⟨1, 1, .TripleRightShiftEquals⟩] := by
  constructor
  · intro l col rest
    have hd : lexNext ⟨l, col, '>' :: rest⟩ =
        opTok ⟨l, col⟩ (gt ⟨l, col, '>' :: rest⟩) := rfl
    rw [hd, gt_eq_longest]
    rfl
  · rfl

/-- C10: a recognized line-terminator character at dispatch position is
not whitespace and matches no dispatch arm, so `next()` returns
`UnexpectedCharacter` at the current position without consuming
anything — the returned state is the input state itself, hence every
subsequent call returns the same error. -/
theorem c10_line_terminator_dispatch_error (st : LexState) (c : Char)
    (h1 : peek st = some c) (h2 : is_line_terminator c = true) :
    lexNext st =
      (some (.error (.UnexpectedCharacter ⟨st.line, st.column⟩ c)), st) := by
  obtain ⟨l, col, input⟩ := st
  cases input with
  | nil => simp [peek] at h1
  | cons c0 rest =>
    have hc : c = c0 := by
      have h1x := h1
      simp [peek] at h1x
      exact h1x.symm
    subst hc
    have hd : c = '\u000A' ∨ c = '\u000D' ∨ c = '\u2028' ∨ c = '\u2029' := by
      simpa [is_line_terminator, or_assoc] using h2
    rcases hd with rfl | rfl | rfl | rfl <;> rfl

/-- C10 witness: the line-separator character `\u{2028}` at dispatch
position yields `UnexpectedCharacter` with the state unchanged. -/
theorem c10_line_terminator_dispatch_error_witness :
    lexNext ⟨1, 1, ['\u2028']⟩ =
      (some (.error (.UnexpectedCharacter ⟨1, 1⟩ '\u2028')), ⟨1, 1, ['\u2028']⟩) :=
  c10_line_terminator_dispatch_error ⟨1, 1, ['\u2028']⟩ '\u2028' rfl rfl

end Tsc
